import Mathlib

/-!
Verification of the owls debate-orchestration repository.

This file contains a shallow embedding of the configuration-resolution,
validation, transcript-writer and session-driver logic of the repository
(src/src/config.py, src/src/cli.py, src/main.py), together with theorems
settling the specification claims about them.

Python dynamic values are modelled by the inductive type `Value`; machine
strings are modelled as Lean `String` and, for the transcript functions
that do index arithmetic, as `List Char`.  Python floats are modelled as
exact rationals (`Rat`); the numeric literals appearing in the code and
claims are all exactly representable, so no rounding behaviour matters.
-/

set_option maxRecDepth 100000

namespace Owls

/-- Model of a Python runtime value as it flows through the configuration
code: None, bool, int, float (as an exact rational), str, and (possibly
nested) dict with string keys.  Lists never matter for any claim and are
omitted. -/
inductive Value where
  | vNone : Value
  | vBool : Bool → Value
  | vInt : Int → Value
  | vFloat : Rat → Value
  | vStr : String → Value
  | vDict : List (String × Value) → Value

/-! ### Character/string helpers (ASCII case mapping, Python-style parses) -/

/-- Lower-case a string character-by-character (the tokens compared by the
source are ASCII, for which Python str.lower agrees with Char.toLower). -/
def lowerStr (s : String) : String :=
  String.mk (s.data.map Char.toLower)

/-- The environment-variable name for a dotted key path:
key_path.upper().replace(".", "_") in ConfigLoader._get_env_value. -/
def envKeyBase (keyPath : String) : String :=
  String.mk (keyPath.data.map (fun c => if c = '.' then '_' else c.toUpper))

/-- Strip leading and trailing whitespace (Python int()/float() accept
surrounding whitespace). -/
def stripWs (cs : List Char) : List Char :=
  ((cs.dropWhile Char.isWhitespace).reverse.dropWhile Char.isWhitespace).reverse

/-- Numeric value of a list of ASCII digits. -/
def digitsToNat (cs : List Char) : Nat :=
  cs.foldl (fun a c => 10 * a + (c.toNat - 48)) 0

/-- Parse a nonempty all-digit string. -/
def natDigits (cs : List Char) : Option Nat :=
  if cs ≠ [] ∧ cs.all Char.isDigit then some (digitsToNat cs) else none

/-- Model of Python int(value) on the forms that occur here: optional
surrounding whitespace, optional sign, one or more ASCII digits.
(Underscore digit grouping and non-ASCII digits are not modelled; no
claim involves them.) -/
def pyIntParse (s : String) : Option Int :=
  match stripWs s.data with
  | '+' :: rest => (natDigits rest).map Int.ofNat
  | '-' :: rest => (natDigits rest).map (fun n => -(n : Int))
  | rest => (natDigits rest).map Int.ofNat

/-- Split a character list at the first character satisfying p. -/
def splitFirst (p : Char → Bool) : List Char → Option (List Char × List Char)
  | [] => none
  | c :: t =>
    if p c then some ([], t)
    else match splitFirst p t with
      | some (a, b) => some (c :: a, b)
      | none => none

/-- Build the rational sgn * (ip.fr) * 10^ex from the parsed parts of a
float literal. -/
def ratOfParts (sgn : Int) (ip : Nat) (fr : List Char) (ex : Int) : Rat :=
  let num : Int := sgn * ((ip * 10 ^ fr.length + digitsToNat fr : Nat) : Int)
  let t : Int := ex - (fr.length : Int)
  if 0 ≤ t then mkRat (num * 10 ^ t.toNat) 1
  else mkRat num (10 ^ (-t).toNat)

/-- Parse the mantissa of a float: digits, digits., digits.digits or
.digits (at least one digit in total). Returns integer part and the
fraction digit list. -/
def parseMantissa (cs : List Char) : Option (Nat × List Char) :=
  match splitFirst (fun c => c = '.') cs with
  | none => (natDigits cs).map (fun n => (n, []))
  | some (ip, fr) =>
    if ip = [] then
      if fr ≠ [] ∧ fr.all Char.isDigit then some (0, fr) else none
    else if ip.all Char.isDigit then
      if fr = [] then some (digitsToNat ip, [])
      else if fr.all Char.isDigit then some (digitsToNat ip, fr)
      else none
    else none

/-- Parse a signed decimal exponent part. -/
def parseExp (cs : List Char) : Option Int :=
  match cs with
  | '+' :: rest => (natDigits rest).map Int.ofNat
  | '-' :: rest => (natDigits rest).map (fun n => -(n : Int))
  | rest => (natDigits rest).map Int.ofNat

/-- Model of Python float(value) on ordinary decimal forms: optional
surrounding whitespace, optional sign, digits with an optional decimal
point, and an optional exponent. ("inf"/"nan" and underscore grouping are
not modelled; no claim involves them.) -/
def pyFloatParse (s : String) : Option Rat :=
  let cs := stripWs s.data
  let (sgn, body) :=
    match cs with
    | '+' :: rest => ((1 : Int), rest)
    | '-' :: rest => ((-1 : Int), rest)
    | rest => ((1 : Int), rest)
  match splitFirst (fun c => c = 'e' ∨ c = 'E') body with
  | none => (parseMantissa body).map (fun p => ratOfParts sgn p.1 p.2 0)
  | some (m, e) =>
    match parseMantissa m, parseExp e with
    | some (ip, fr), some ex => some (ratOfParts sgn ip fr ex)
    | _, _ => none

/-! ### ConfigLoader._convert_type (src/src/config.py lines 137-158) -/

/-- Boolean-like tokens coerced to True. -/
def truthyTokens : List String := ["true", "yes", "on", "1"]

/-- Boolean-like tokens coerced to False. -/
def falsyTokens : List String := ["false", "no", "off", "0"]

/-- Embedding of ConfigLoader._convert_type: boolean tokens first, then an
integer parse, then a float parse, else the text unchanged. -/
def convertType (value : String) : Value :=
  if truthyTokens.contains (lowerStr value) then Value.vBool true
  else if falsyTokens.contains (lowerStr value) then Value.vBool false
  else match pyIntParse value with
    | some n => Value.vInt n
    | none => match pyFloatParse value with
      | some q => Value.vFloat q
      | none => Value.vStr value

/-! ### ConfigLoader environment/YAML lookup (src/src/config.py lines 101-135) -/

/-- The env_mappings table of ConfigLoader._get_env_value (each entry maps
a name to itself, so the table is an identity on its domain). -/
def envMappings : List (String × String) :=
  [("OPENAI_API_KEY", "OPENAI_API_KEY"), ("OPENAI_MODEL", "OPENAI_MODEL")]

/-- Embedding of ConfigLoader._get_env_value: map the dotted key path to an
environment-variable name, look it up in the process environment (modelled
as a function to Option String), and coerce the text with _convert_type. -/
def getEnvValue (env : String → Option String) (keyPath : String) : Option Value :=
  let k := envKeyBase keyPath
  let k2 := match List.lookup k envMappings with
    | some m => m
    | none => k
  (env k2).map convertType

/-- Split a character list on the dot character (every list returned is a
segment between dots; "a.b" gives two segments). -/
def splitDot : List Char → List (List Char)
  | [] => [[]]
  | c :: t =>
    if c = '.' then [] :: splitDot t
    else match splitDot t with
      | [] => [[c]]
      | r :: rs => (c :: r) :: rs

/-- The dotted key path as a list of key segments (key_path.split(".")). -/
def splitKeys (s : String) : List String :=
  (splitDot s.data).map String.mk

/-- Walk the nested YAML dictionaries along the key segments; each step
must land in a dict that has the key (the isinstance(current, dict) and
key in current test of ConfigLoader._get_yaml_value). -/
def yamlLookup (v : Value) (keys : List String) : Option Value :=
  match keys with
  | [] => some v
  | k :: ks =>
    match v with
    | Value.vDict xs =>
      match List.lookup k xs with
      | some w => yamlLookup w ks
      | none => none
    | _ => none

/-- Embedding of ConfigLoader._get_yaml_value composed with the
"is not None" test of ConfigLoader.get: a key that is missing, or whose
stored value is YAML null, is treated as absent. -/
def getYamlValue (data : Value) (keyPath : String) : Option Value :=
  match yamlLookup data (splitKeys keyPath) with
  | some Value.vNone => none
  | r => r

/-- Embedding of ConfigLoader.get (src/src/config.py lines 78-99):
environment variable first, then the YAML file, then the default. -/
def configGet (env : String → Option String) (yaml : Value)
    (keyPath : String) (default : Value) : Value :=
  match getEnvValue env keyPath with
  | some v => v
  | none =>
    match getYamlValue yaml keyPath with
    | some v => v
    | none => default

/-! ### CLIConfig lookup (src/src/cli.py lines 59-107) -/

/-- The cli_mappings table of CLIConfig._get_cli_value. -/
def cliMappings : List (String × String) :=
  [("openai.api_key", "api_key"), ("openai.model", "model"),
   ("openai.temperature", "temperature"), ("openai.max_tokens", "max_tokens"),
   ("debate.max_rounds", "rounds"), ("project.language", "language"),
   ("logging.output.directory", "output_dir"), ("logging.console.enabled", "verbose")]

/-- Embedding of CLIConfig._get_cli_value: look the dotted path up in the
mapping table and read the CLI-argument dictionary (a missing key and a
key whose value is None are both treated as absent, exactly as the source
treats them). -/
def getCliValue (cliArgs : String → Option Value) (keyPath : String) : Option Value :=
  match List.lookup keyPath cliMappings with
  | some cliKey => cliArgs cliKey
  | none => none

/-- Embedding of CLIConfig.get: the CLI argument wins; otherwise the
lookup is delegated to ConfigLoader.get (the config_loader field is always
set when this method runs, since __init__ either sets it or exits). -/
def cliGet (cliArgs : String → Option Value) (env : String → Option String)
    (yaml : Value) (keyPath : String) (default : Value) : Value :=
  match getCliValue cliArgs keyPath with
  | some v => v
  | none => configGet env yaml keyPath default

/-! ### Config file discovery (src/src/config.py lines 37-76, src/src/cli.py lines 50-57) -/

/-- Errors raised by ConfigLoader (the ConfigError exception class). -/
inductive ConfigError where
  | fileNotFound : String → ConfigError
  | yamlError : String → ConfigError
deriving DecidableEq

/-- The possible_paths list searched by ConfigLoader._find_config_file when
no path is supplied. -/
def defaultConfigPaths : List String :=
  ["config.yml", "config.yaml", "./config.yml", "../config.yml"]

/-- Embedding of ConfigLoader._find_config_file: an explicitly named file
must exist (otherwise ConfigError), while with no explicit path the default
locations are searched in order and absence everywhere is not an error. -/
def findConfigFile (configPath : Option String) (fileExists : String → Bool) :
    Except ConfigError (Option String) :=
  match configPath with
  | some p =>
    if fileExists p then Except.ok (some p)
    else Except.error (ConfigError.fileNotFound p)
  | none =>
    match defaultConfigPaths.find? fileExists with
    | some p => Except.ok (some p)
    | none => Except.ok none

/-- Embedding of ConfigLoader._load_config: with no file the data is the
empty dict (defaults only); with a file, the parsed YAML (the external
parser is a parameter), a parse failure becoming a ConfigError. -/
def loadConfigData (path : Option String) (parseFile : String → Except String Value) :
    Except ConfigError Value :=
  match path with
  | none => Except.ok (Value.vDict [])
  | some p =>
    match parseFile p with
    | Except.ok v => Except.ok v
    | Except.error e => Except.error (ConfigError.yamlError e)

/-- Embedding of CLIConfig._load_config_file: construct the ConfigLoader
and turn any ConfigError into process exit code 1. -/
def cliLoadConfigFile (configArg : Option String) (fileExists : String → Bool)
    (parseFile : String → Except String Value) : Except Nat (Option String × Value) :=
  match findConfigFile configArg fileExists with
  | Except.error _ => Except.error 1
  | Except.ok p =>
    match loadConfigData p parseFile with
    | Except.error _ => Except.error 1
    | Except.ok v => Except.ok (p, v)

/-! ### Helper lemmas -/

/-! ### Claim theorems for configuration resolution -/

/-- Concrete CLI-argument source used by the precedence witness. -/
def cliSrcW : String → Option Value := fun _ => some (Value.vFloat (mkRat 3 2))

/-- Concrete absent CLI-argument source used by the precedence witness. -/
def cliSrcNone : String → Option Value := fun _ => none

/-- Concrete environment used by the precedence witness. -/
def envSrcW : String → Option String := fun _ => some "1.9"

/-- Concrete empty environment used by the precedence witness. -/
def envSrcNone : String → Option String := fun _ => none

/-- Concrete YAML data used by the precedence witness. -/
def yamlSrcW : Value :=
  Value.vDict [("openai", Value.vDict [("temperature", Value.vFloat 1)])]

/-- The no-files filesystem used by the C7 witness. -/
def noFileW : String → Bool := fun _ => false

/-- The trivial YAML parser used by the C7 witness. -/
def parseFileW : String → Except String Value := fun _ => Except.ok (Value.vDict [])

/-! ### CLIConfig.validate_config (src/src/cli.py lines 161-208) -/

/-- Python truthiness of a value (the "if not api_key" test). -/
def pyTruthy : Value → Bool
  | Value.vNone => false
  | Value.vBool b => b
  | Value.vInt n => if n = 0 then false else true
  | Value.vFloat q => if q = 0 then false else true
  | Value.vStr s => if s = "" then false else true
  | Value.vDict [] => false
  | Value.vDict (_ :: _) => true

/-- Python isinstance(v, int); bool is a subclass of int in Python. -/
def pyIsInt : Value → Bool
  | Value.vInt _ => true
  | Value.vBool _ => true
  | _ => false

/-- The integer a Python int-or-bool stands for. -/
def pyIntVal : Value → Int
  | Value.vInt n => n
  | Value.vBool b => if b then 1 else 0
  | _ => 0

/-- Python isinstance(v, (int, float)). -/
def pyIsNum : Value → Bool
  | Value.vInt _ => true
  | Value.vBool _ => true
  | Value.vFloat _ => true
  | _ => false

/-- The rational a Python number stands for. -/
def pyNumVal : Value → Rat
  | Value.vInt n => (n : Rat)
  | Value.vBool b => if b then 1 else 0
  | Value.vFloat q => q
  | _ => 0

/-- The allow-list of model identifiers in CLIConfig.validate_config. -/
def validModels : List String :=
  ["gpt-4", "gpt-3.5-turbo", "gpt-4-turbo", "gpt-4o", "gpt-5"]

/-- The allow-list of language codes in CLIConfig.validate_config. -/
def validLanguages : List String := ["ja", "en", "zh"]

/-- Python "model in valid_models": only a string can equal a string. -/
def isValidModel : Value → Bool
  | Value.vStr s => validModels.contains s
  | _ => false

/-- Python "language in valid_languages". -/
def isValidLanguage : Value → Bool
  | Value.vStr s => validLanguages.contains s
  | _ => false

/-- The rounds constraint: isinstance(rounds, int) and 1 <= rounds <= 100. -/
def roundsOK (v : Value) : Bool :=
  pyIsInt v && decide (1 ≤ pyIntVal v) && decide (pyIntVal v ≤ 100)

/-- The temperature constraint: isinstance(t, (int, float)) and
0.0 <= t <= 2.0. -/
def temperatureOK (v : Value) : Bool :=
  pyIsNum v && decide (0 ≤ pyNumVal v) && decide (pyNumVal v ≤ 2)

/-- The max-tokens constraint: isinstance(m, int) and 1 <= m <= 32000. -/
def maxTokensOK (v : Value) : Bool :=
  pyIsInt v && decide (1 ≤ pyIntVal v) && decide (pyIntVal v ≤ 32000)

/-- The resolved API key (CLIConfig.get_openai_config, default None). -/
def apiKeyOf (cliArgs : String → Option Value) (env : String → Option String)
    (yaml : Value) : Value :=
  cliGet cliArgs env yaml "openai.api_key" Value.vNone

/-- The resolved model (default "gpt-4"). -/
def modelOf (cliArgs : String → Option Value) (env : String → Option String)
    (yaml : Value) : Value :=
  cliGet cliArgs env yaml "openai.model" (Value.vStr "gpt-4")

/-- The resolved rounds value (default 10). -/
def roundsOf (cliArgs : String → Option Value) (env : String → Option String)
    (yaml : Value) : Value :=
  cliGet cliArgs env yaml "debate.max_rounds" (Value.vInt 10)

/-- The resolved temperature (default 0.7). -/
def temperatureOf (cliArgs : String → Option Value) (env : String → Option String)
    (yaml : Value) : Value :=
  cliGet cliArgs env yaml "openai.temperature" (Value.vFloat (mkRat 7 10))

/-- The resolved max-tokens value (default 2000). -/
def maxTokensOf (cliArgs : String → Option Value) (env : String → Option String)
    (yaml : Value) : Value :=
  cliGet cliArgs env yaml "openai.max_tokens" (Value.vInt 2000)

/-- The resolved language (default "ja"). -/
def languageOf (cliArgs : String → Option Value) (env : String → Option String)
    (yaml : Value) : Value :=
  cliGet cliArgs env yaml "project.language" (Value.vStr "ja")

/-- One entry of the error report produced by CLIConfig.validate_config;
each constructor stands for one of the six constraint messages, carrying
the offending value that the source interpolates into the message text. -/
inductive VErr where
  | apiKeyMissing : VErr
  | badModel : Value → VErr
  | badRounds : Value → VErr
  | badTemperature : Value → VErr
  | badMaxTokens : Value → VErr
  | badLanguage : Value → VErr

/-- Embedding of the errors list accumulated by CLIConfig.validate_config,
in source order: API key, model, rounds, temperature, max tokens,
language. Every violated constraint appends its entry; no check is
short-circuited by an earlier failure. -/
def validateErrors (cliArgs : String → Option Value) (env : String → Option String)
    (yaml : Value) : List VErr :=
  (if pyTruthy (apiKeyOf cliArgs env yaml) then [] else [VErr.apiKeyMissing]) ++
  (if isValidModel (modelOf cliArgs env yaml) then []
    else [VErr.badModel (modelOf cliArgs env yaml)]) ++
  (if roundsOK (roundsOf cliArgs env yaml) then []
    else [VErr.badRounds (roundsOf cliArgs env yaml)]) ++
  (if temperatureOK (temperatureOf cliArgs env yaml) then []
    else [VErr.badTemperature (temperatureOf cliArgs env yaml)]) ++
  (if maxTokensOK (maxTokensOf cliArgs env yaml) then []
    else [VErr.badMaxTokens (maxTokensOf cliArgs env yaml)]) ++
  (if isValidLanguage (languageOf cliArgs env yaml) then []
    else [VErr.badLanguage (languageOf cliArgs env yaml)])

/-- Embedding of CLIConfig.validate_config's return value: True exactly
when the errors list is empty (otherwise the list is printed and False is
returned). -/
def validateConfig (cliArgs : String → Option Value) (env : String → Option String)
    (yaml : Value) : Bool :=
  (validateErrors cliArgs env yaml).isEmpty

/-- Concrete CLI arguments for the C3 witness: a set API key together
with temperature 5.0 and rounds 0, both out of range. -/
def cliArgsC3 : String → Option Value := fun k =>
  if k = "temperature" then some (Value.vFloat 5)
  else if k = "rounds" then some (Value.vInt 0)
  else if k = "api_key" then some (Value.vStr "sk-test")
  else none

/-- Does pat occur as a prefix of the second list. -/
def startsWithL : List Char → List Char → Bool
  | [], _ => true
  | _ :: _, [] => false
  | p :: pt, h :: t => p == h && startsWithL pt t

/-- Index search used to model Python str.find. -/
def findSubAux (pat : List Char) : List Char → Nat → Option Nat
  | [], i => if startsWithL pat [] then some i else none
  | h :: t, i => if startsWithL pat (h :: t) then some i else findSubAux pat t (i + 1)

/-- Model of Python content.find(pat): the index of the first occurrence,
none when absent (the source's -1). -/
def findSub (hay pat : List Char) : Option Nat :=
  findSubAux pat hay 0

/-- Does pat occur anywhere in hay. -/
def hasSub (hay pat : List Char) : Bool :=
  (findSub hay pat).isSome

/-- Fuel-driven worker for replaceSub; the fuel bounds the number of
character positions scanned, so hay.length suffices. -/
def replaceSubAux (pat rep : List Char) : Nat → List Char → List Char
  | 0, hay => hay
  | _ + 1, [] => []
  | fuel + 1, h :: t =>
    if startsWithL pat (h :: t) then
      match pat with
      | [] => h :: t
      | _ :: pt => rep ++ replaceSubAux pat rep fuel (t.drop pt.length)
    else h :: replaceSubAux pat rep fuel t

/-- Model of Python content.replace(pat, rep): every non-overlapping
occurrence, scanned left to right. -/
def replaceSub (hay pat rep : List Char) : List Char :=
  replaceSubAux pat rep hay.length hay

/-- Fuel-driven worker for countSub. -/
def countSubAux (pat : List Char) : Nat → List Char → Nat
  | 0, _ => 0
  | _ + 1, [] => 0
  | fuel + 1, h :: t =>
    if startsWithL pat (h :: t) then
      match pat with
      | [] => 0
      | _ :: pt => 1 + countSubAux pat fuel (t.drop pt.length)
    else countSubAux pat fuel t

/-- The number of non-overlapping occurrences of pat in hay (Python
str.count for a nonempty pattern). -/
def countSub (hay pat : List Char) : Nat :=
  countSubAux pat hay.length hay

/-! ### Transcript writer (src/main.py lines 122-148 and 204-225) -/

/-- The fixed section-break marker written after the header and after each
turn block. -/
def sepMarker : List Char := "---\n\n".data

/-- The in-progress status marker written by the file initialization. -/
def inProgressMarker : List Char := "**議論状況:** 進行中...".data

/-- The terminal status marker substituted by finalize. -/
def completedMarker : List Char := "**議論状況:** 完了".data

/-- The heading that opens each turn block. -/
def turnHeading : List Char := "## 発言 ".data

/-- The transcript file path built by initialize_markdown_file:
an f-string gluing the filename prefix from the logging configuration, an
underscore, the one-second-resolution timestamp, and the .md suffix, with
no directory component. -/
def markdownPath (stem timestamp : String) : String :=
  stem ++ "_" ++ timestamp ++ ".md"

/-- The initial file content written by initialize_markdown_file: title,
topic, start time, participant legend, in-progress status, and the
section-break marker. -/
def newMarkdownContent (topic startTime : String) : List Char :=
  "# AI議論セッション\n\n".data ++
  "**テーマ:** ".data ++ topic.data ++ "\n\n".data ++
  "**開始時刻:** ".data ++ startTime.data ++ "\n\n".data ++
  "**参加エージェント:** Pro (Plan A支持), Con (Plan B支持), Mediator (調停役)\n\n".data ++
  inProgressMarker ++ "\n\n".data ++ sepMarker

/-- One turn block as appended by append_message_to_markdown: heading with
the running message count and speaker, a timestamp line, the content, and
the section-break marker. -/
def appendBlock (file : List Char) (idx : Nat) (speaker content timeStr : String) :
    List Char :=
  file ++ turnHeading ++ (toString idx).data ++ ": ".data ++ speaker.data ++
  "\n\n".data ++ "**時刻:** ".data ++ timeStr.data ++ "\n\n".data ++
  content.data ++ "\n\n".data ++ sepMarker

/-- Embedding of finalize_markdown_file: replace the in-progress marker
with the terminal one, then locate the first section-break marker; when
it is found, rebuild the header with end time, duration and message count
injected before the marker; when it is absent, the file is left exactly as
it was (the replaced text lives only in memory and is never written) and
the function still returns normally — the source has no raising path
here, so the embedding never produces Except.error. -/
def finalizeContent (orig : List Char) (endTime durStr : String) (msgCount : Nat) :
    Except String (List Char) :=
  let c := replaceSub orig inProgressMarker completedMarker
  match findSub c sepMarker with
  | none => Except.ok orig
  | some i =>
    let newHeader := c.take i ++
      "**終了時刻:** ".data ++ endTime.data ++ "\n\n".data ++
      "**議論時間:** ".data ++ durStr.data ++ "\n\n".data ++
      "**総メッセージ数:** ".data ++ (toString msgCount).data ++ "\n\n".data ++
      sepMarker
    Except.ok (newHeader ++ c.drop (i + 5))

/-! ### Session driver (src/main.py lines 86-93 and 160-240)

The round-robin group-chat loop itself lives in the external autogen
library (configured but not defined in this repository), so it is
modelled from the spec: turn order is strict round-robin over the roster
up to the configured absolute turn ceiling; a failing generate call
aborts the remaining schedule, the messages produced before the failure
remaining in the in-memory log while the exception propagates. -/

/-- One chat message in the in-memory groupchat.messages log. -/
structure Msg where
  name : String
  content : String
deriving DecidableEq

/-- Modelled from the spec: the round-robin turn loop of the external
autogen GroupChat (speaker_selection_method="round_robin", bounded by
max_round). Turn i is spoken by roster[i mod len(roster)]; generate
returning none models a raised generation failure, which stops the
schedule with the earlier messages kept; the Bool records whether the
whole schedule completed without an exception. -/
def chatTurns (roster : List String) (gen : Nat → Option String) :
    Nat → Nat → List Msg × Bool
  | _, 0 => ([], true)
  | i, n + 1 =>
    match gen i with
    | none => ([], false)
    | some c =>
      let r := chatTurns roster gen (i + 1) n
      (⟨roster.getD (i % roster.length) "", c⟩ :: r.1, r.2)

/-- Modelled from the spec: user_proxy.initiate_chat seeds the message log
with the convener's initial topic/premise message, then runs the
round-robin schedule. -/
def chatRun (roster : List String) (maxTurns : Nat) (gen : Nat → Option String)
    (initMsg : String) : List Msg × Bool :=
  let r := chatTurns roster gen 0 maxTurns
  (⟨"user_proxy", initMsg⟩ :: r.1, r.2)

/-- The post-chat filter of src/main.py: messages with a truthy name that
is not "user_proxy". -/
def nonProxy (msgs : List Msg) : List Msg :=
  msgs.filter (fun m => !(m.name == "") && !(m.name == "user_proxy"))

/-- The post-chat write loop of src/main.py lines 168-178: append one
numbered block per filtered message, counting from 1. -/
def appendMessages (file : List Char) (msgs : List Msg) (timeStr : String) : List Char :=
  (msgs.foldl
    (fun (acc : List Char × Nat) m =>
      (appendBlock acc.1 (acc.2 + 1) m.name m.content timeStr, acc.2 + 1))
    (file, 0)).1

/-- The transcript file produced by one whole run of src/main.py after the
chat: on success the write loop appends every filtered message, while on a
generation failure the except branch only prints, appending nothing; both
paths then call finalize_markdown_file with the filtered message count. -/
def sessionTranscript (initContent : List Char) (run : List Msg × Bool)
    (timeStr endTime durStr : String) : Except String (List Char) :=
  let kept := nonProxy run.1
  let fileAfter := if run.2 then appendMessages initContent kept timeStr else initContent
  finalizeContent fileAfter endTime durStr kept.length

/-! ### Scheduler lemmas and claim C9 -/

/-- The three-role roster of the repository (Pro, Con, Mediator). -/
def rosterW : List String := ["Pro", "Con", "Mediator"]

/-- An always-succeeding generation capability for the C9 witness. -/
def genAllOK : Nat → Option String := fun _ => some "発言"

/-! ### Claim C2: generation failure mid-session -/

/-- The freshly initialized transcript used in the failure scenario. -/
def initC2 : List Char :=
  newMarkdownContent "Plan A 内製 vs Plan B 外注" "2025年01月01日 12:00:00"

/-- A generation capability that raises at turn 5 of the schedule (turns
are indexed from 0, so index 4 fails). -/
def genFailAt5 : Nat → Option String := fun i => if i < 4 then some "発言内容" else none

/-- The chat run of the failure scenario: 9 scheduled turns over the
3-role roster, failing at turn 5. -/
def runC2 : List Msg × Bool := chatRun rosterW 9 genFailAt5 "初期メッセージ"

/-- The sealed transcript file of the failure scenario. -/
def fileC2 : List Char :=
  match sessionTranscript initC2 runC2 "12:01:00" "2025年01月01日 12:10:00"
      "600.0秒 (10分0秒)" with
  | Except.ok c => c
  | Except.error _ => []

/-! ### Claim C4: finalize on a file without the section-break marker -/

/-- A transcript whose section-break marker is missing (externally edited
or corrupted), still carrying the in-progress status. -/
def badTranscript : List Char := "# AI議論セッション\n\n**議論状況:** 進行中...\n\n".data

/-! ### Claim C8: open path format and finalize idempotence of the marker -/

/-- A freshly opened transcript for the finalize inspection. -/
def initC8 : List Char := newMarkdownContent "テーマX" "2025年01月01日 12:00:00"

/-- The file after finalize for the C8 inspection. -/
def finC8 : List Char :=
  match finalizeContent initC8 "2025年01月01日 12:34:56" "2096.0秒 (34分56秒)" 9 with
  | Except.ok c => c
  | Except.error _ => []

/-! ### Claim C10: the transcript path ignores the output directory -/

/-- The resolved output block of the logging configuration
(get_logging_config): the directory setting and the filename prefix
setting, both resolved to strings. -/
structure OutputConfig where
  directory : String
  stem : String

/-- The transcript path as built by initialize_markdown_file: only the
filename prefix (the stem field) and the timestamp contribute; the
resolved directory setting does not appear. -/
def transcriptPath (cfg : OutputConfig) (timestamp : String) : String :=
  cfg.stem ++ "_" ++ timestamp ++ ".md"

/-! ### Claim C5: the dry-run flag -/

/-- The observable outcome of one program start (src/main.py lines 8-16
together with src/src/cli.py main, lines 344-364): whether
validate_config ran, whether the configuration summary was printed, the
process exit code (none meaning the process goes on to run the session),
and whether a session was started. -/
structure RunTrace where
  validationRan : Bool
  summaryPrinted : Bool
  exitCode : Option Nat
  sessionStarted : Bool
deriving DecidableEq

/-- Embedding of the top-level control flow: the dry-run branch prints the
summary and returns before validate_config is reached, and src/main.py
then exits with code 0 without building agents or a transcript; otherwise
validation runs, a failure exits with code 1, and success prints the
summary and proceeds to the session. -/
def mainFlow (cliArgs : String → Option Value) (env : String → Option String)
    (yaml : Value) : RunTrace :=
  if pyTruthy ((cliArgs "dry_run").getD Value.vNone) then
    ⟨false, true, some 0, false⟩
  else if validateConfig cliArgs env yaml = false then
    ⟨true, false, some 1, false⟩
  else
    ⟨true, true, none, true⟩

/-- The CLI arguments of the dry-run scenario: the flag set and no API key
supplied anywhere, so validation would fail if it ran. -/
def cliArgsC5 : String → Option Value := fun k =>
  if k = "dry_run" then some (Value.vBool true) else none

/-- Splitting on dots always yields at least one segment. -/
theorem splitDot_ne_nil (cs : List Char) : splitDot cs ≠ [] := by
  induction cs with
  | nil => simp [splitDot]
  | cons c t ih =>
    simp only [splitDot]
    split
    · simp
    · cases h : splitDot t with
      | nil => simp
      | cons r rs => simp

/-- Looking any key up in the empty configuration dict yields nothing. -/
theorem getYamlValue_empty (key : String) : getYamlValue (Value.vDict []) key = none := by
  unfold getYamlValue
  cases h : splitKeys key with
  | nil =>
    exact absurd (List.map_eq_nil_iff.mp h) (splitDot_ne_nil key.data)
  | cons k ks =>
    simp [yamlLookup, List.lookup]

/-- C1: for every configuration key and every combination of sources, the
resolved value obeys the precedence CLI over environment over file over
default: a supplied CLI value is returned; otherwise a set environment
variable's coerced value; otherwise the YAML file's value; otherwise the
built-in default — independent of which other sources are present. -/
theorem c1_config_precedence (cliArgs : String → Option Value)
    (env : String → Option String) (yaml : Value) (key : String) (d : Value) :
    (∀ v, getCliValue cliArgs key = some v → cliGet cliArgs env yaml key d = v) ∧
    (getCliValue cliArgs key = none →
      ∀ v, getEnvValue env key = some v → cliGet cliArgs env yaml key d = v) ∧
    (getCliValue cliArgs key = none → getEnvValue env key = none →
      ∀ v, getYamlValue yaml key = some v → cliGet cliArgs env yaml key d = v) ∧
    (getCliValue cliArgs key = none → getEnvValue env key = none →
      getYamlValue yaml key = none → cliGet cliArgs env yaml key d = d) := by
  refine ⟨?_, ?_, ?_, ?_⟩
  · intro v h; simp [cliGet, h]
  · intro h v h2; simp [cliGet, configGet, h, h2]
  · intro h h2 v h3; simp [cliGet, configGet, h, h2, h3]
  · intro h h2 h3; simp [cliGet, configGet, h, h2, h3]

/-- Witness for C1: each precedence level exercised at a concrete input
(CLI beats a set environment variable; the environment beats the file; the
file beats the default; the default applies when all sources are absent). -/
theorem c1_config_precedence_witness :
    (getCliValue cliSrcW "openai.temperature" = some (Value.vFloat (mkRat 3 2)) ∧
      cliGet cliSrcW envSrcW yamlSrcW "openai.temperature" (Value.vFloat (mkRat 7 10))
        = Value.vFloat (mkRat 3 2)) ∧
    (getEnvValue envSrcW "openai.temperature" = some (Value.vFloat (mkRat 19 10)) ∧
      cliGet cliSrcNone envSrcW yamlSrcW "openai.temperature" (Value.vFloat (mkRat 7 10))
        = Value.vFloat (mkRat 19 10)) ∧
    (getYamlValue yamlSrcW "openai.temperature" = some (Value.vFloat 1) ∧
      cliGet cliSrcNone envSrcNone yamlSrcW "openai.temperature" (Value.vFloat (mkRat 7 10))
        = Value.vFloat 1) ∧
    cliGet cliSrcNone envSrcNone (Value.vDict []) "openai.temperature"
        (Value.vFloat (mkRat 7 10)) = Value.vFloat (mkRat 7 10) :=
  ⟨⟨rfl, (c1_config_precedence cliSrcW envSrcW yamlSrcW "openai.temperature"
      (Value.vFloat (mkRat 7 10))).1 _ rfl⟩,
   ⟨rfl, (c1_config_precedence cliSrcNone envSrcW yamlSrcW "openai.temperature"
      (Value.vFloat (mkRat 7 10))).2.1 rfl _ rfl⟩,
   ⟨rfl, (c1_config_precedence cliSrcNone envSrcNone yamlSrcW "openai.temperature"
      (Value.vFloat (mkRat 7 10))).2.2.1 rfl rfl _ rfl⟩,
   (c1_config_precedence cliSrcNone envSrcNone (Value.vDict []) "openai.temperature"
      (Value.vFloat (mkRat 7 10))).2.2.2 rfl rfl rfl⟩

/-- C6: environment-variable text coercion proceeds in order: boolean-like
tokens first (case-insensitively, "true"/"yes"/"on"/"1" to True and
"false"/"no"/"off"/"0" to False), then an integer parse, then a float
parse, else the text is retained; in particular "1" coerces to boolean
True and never to the integer 1. -/
theorem c6_convert_type_order (s : String) :
    (lowerStr s ∈ truthyTokens → convertType s = Value.vBool true) ∧
    (lowerStr s ∉ truthyTokens → lowerStr s ∈ falsyTokens →
      convertType s = Value.vBool false) ∧
    (lowerStr s ∉ truthyTokens → lowerStr s ∉ falsyTokens →
      ∀ n, pyIntParse s = some n → convertType s = Value.vInt n) ∧
    (lowerStr s ∉ truthyTokens → lowerStr s ∉ falsyTokens → pyIntParse s = none →
      ∀ q, pyFloatParse s = some q → convertType s = Value.vFloat q) ∧
    (lowerStr s ∉ truthyTokens → lowerStr s ∉ falsyTokens → pyIntParse s = none →
      pyFloatParse s = none → convertType s = Value.vStr s) ∧
    convertType "1" = Value.vBool true := by
  refine ⟨?_, ?_, ?_, ?_, ?_, rfl⟩
  · intro h; simp [convertType, h]
  · intro h h2; simp [convertType, h, h2]
  · intro h h2 n h3; simp [convertType, h, h2, h3]
  · intro h h2 h3 q h4; simp [convertType, h, h2, h3, h4]
  · intro h h2 h3 h4; simp [convertType, h, h2, h3, h4]

/-- Witness for C6: one concrete input per coercion outcome ("Yes" to
True, "off" to False, "42" to an integer, "2.5" to a float, "hello"
retained as text). -/
theorem c6_convert_type_order_witness :
    (lowerStr "Yes" ∈ truthyTokens ∧ convertType "Yes" = Value.vBool true) ∧
    (lowerStr "off" ∈ falsyTokens ∧ convertType "off" = Value.vBool false) ∧
    (pyIntParse "42" = some 42 ∧ convertType "42" = Value.vInt 42) ∧
    (pyIntParse "2.5" = none ∧ pyFloatParse "2.5" = some (mkRat 5 2) ∧
      convertType "2.5" = Value.vFloat (mkRat 5 2)) ∧
    (pyFloatParse "hello" = none ∧ convertType "hello" = Value.vStr "hello") :=
  ⟨⟨by decide, (c6_convert_type_order "Yes").1 (by decide)⟩,
   ⟨by decide, (c6_convert_type_order "off").2.1 (by decide) (by decide)⟩,
   ⟨rfl, (c6_convert_type_order "42").2.2.1 (by decide) (by decide) 42 rfl⟩,
   ⟨rfl, rfl, (c6_convert_type_order "2.5").2.2.2.1 (by decide) (by decide) rfl _ rfl⟩,
   ⟨rfl, (c6_convert_type_order "hello").2.2.2.2.1 (by decide) (by decide) rfl rfl⟩⟩

/-- C7: an explicitly supplied config-file path that does not exist is a
fatal configuration error (ConfigError, exit code 1), while no supplied
path with no file at any default location succeeds with the empty file
layer, so built-in defaults apply. -/
theorem c7_config_file_discovery :
    (∀ p fileExists parseFile, fileExists p = false →
      findConfigFile (some p) fileExists = Except.error (ConfigError.fileNotFound p) ∧
      cliLoadConfigFile (some p) fileExists parseFile = Except.error 1) ∧
    (∀ fileExists parseFile, (∀ q ∈ defaultConfigPaths, fileExists q = false) →
      findConfigFile none fileExists = Except.ok none ∧
      cliLoadConfigFile none fileExists parseFile = Except.ok (none, Value.vDict []) ∧
      ∀ key d, configGet (fun _ => none) (Value.vDict []) key d = d) := by
  constructor
  · intro p fileExists parseFile h
    constructor
    · simp [findConfigFile, h]
    · simp [cliLoadConfigFile, findConfigFile, h]
  · intro fileExists parseFile h
    have hf : defaultConfigPaths.find? fileExists = none := by
      rw [List.find?_eq_none]
      intro x hx
      simp [h x hx]
    refine ⟨by simp [findConfigFile, hf],
            by simp [cliLoadConfigFile, findConfigFile, hf, loadConfigData], ?_⟩
    intro key d
    simp [configGet, getEnvValue, getYamlValue_empty]

/-- Witness for C7: a missing explicit path exits with code 1; with no
path and no file anywhere, loading succeeds and a lookup falls through to
its built-in default. -/
theorem c7_config_file_discovery_witness :
    (noFileW "custom.yml" = false ∧
      cliLoadConfigFile (some "custom.yml") noFileW parseFileW = Except.error 1) ∧
    ((∀ q ∈ defaultConfigPaths, noFileW q = false) ∧
      cliLoadConfigFile none noFileW parseFileW = Except.ok (none, Value.vDict []) ∧
      configGet (fun _ => none) (Value.vDict []) "openai.max_tokens" (Value.vInt 2000)
        = Value.vInt 2000) :=
  ⟨⟨rfl, ((c7_config_file_discovery.1) "custom.yml" noFileW parseFileW rfl).2⟩,
   ⟨by decide,
    ((c7_config_file_discovery.2) noFileW parseFileW (by decide)).2.1,
    ((c7_config_file_discovery.2) noFileW parseFileW (by decide)).2.2
      "openai.max_tokens" (Value.vInt 2000)⟩⟩

/-- C3: validation is exhaustive — for any configuration, every violated
constraint contributes its own entry to the error report (each of the six
checks appears in the list exactly when its constraint is violated, so
several simultaneous violations are all named), and validation fails
exactly when the report is nonempty. -/
theorem c3_validation_exhaustive (cliArgs : String → Option Value)
    (env : String → Option String) (yaml : Value) :
    (pyTruthy (apiKeyOf cliArgs env yaml) = false →
      VErr.apiKeyMissing ∈ validateErrors cliArgs env yaml) ∧
    (isValidModel (modelOf cliArgs env yaml) = false →
      VErr.badModel (modelOf cliArgs env yaml) ∈ validateErrors cliArgs env yaml) ∧
    (roundsOK (roundsOf cliArgs env yaml) = false →
      VErr.badRounds (roundsOf cliArgs env yaml) ∈ validateErrors cliArgs env yaml) ∧
    (temperatureOK (temperatureOf cliArgs env yaml) = false →
      VErr.badTemperature (temperatureOf cliArgs env yaml) ∈ validateErrors cliArgs env yaml) ∧
    (maxTokensOK (maxTokensOf cliArgs env yaml) = false →
      VErr.badMaxTokens (maxTokensOf cliArgs env yaml) ∈ validateErrors cliArgs env yaml) ∧
    (isValidLanguage (languageOf cliArgs env yaml) = false →
      VErr.badLanguage (languageOf cliArgs env yaml) ∈ validateErrors cliArgs env yaml) ∧
    (validateConfig cliArgs env yaml = false ↔ validateErrors cliArgs env yaml ≠ []) := by
  refine ⟨?_, ?_, ?_, ?_, ?_, ?_, ?_⟩
  · intro h; simp [validateErrors, h]
  · intro h; simp [validateErrors, h]
  · intro h; simp [validateErrors, h]
  · intro h; simp [validateErrors, h]
  · intro h; simp [validateErrors, h]
  · intro h; simp [validateErrors, h]
  · cases hl : validateErrors cliArgs env yaml <;> simp [validateConfig, hl, List.isEmpty]

/-- Witness for C3: with temperature 5.0 and rounds 0 both supplied, both
constraints are violated and both are named in the report, which makes
validation fail. -/
theorem c3_validation_exhaustive_witness :
    temperatureOK (temperatureOf cliArgsC3 envSrcNone (Value.vDict [])) = false ∧
    roundsOK (roundsOf cliArgsC3 envSrcNone (Value.vDict [])) = false ∧
    VErr.badTemperature (temperatureOf cliArgsC3 envSrcNone (Value.vDict []))
      ∈ validateErrors cliArgsC3 envSrcNone (Value.vDict []) ∧
    VErr.badRounds (roundsOf cliArgsC3 envSrcNone (Value.vDict []))
      ∈ validateErrors cliArgsC3 envSrcNone (Value.vDict []) ∧
    validateConfig cliArgsC3 envSrcNone (Value.vDict []) = false :=
  ⟨rfl, rfl,
   (c3_validation_exhaustive cliArgsC3 envSrcNone (Value.vDict [])).2.2.2.1 rfl,
   (c3_validation_exhaustive cliArgsC3 envSrcNone (Value.vDict [])).2.2.1 rfl,
   rfl⟩

/-! ### Substring machinery for the transcript file

The transcript functions of src/main.py manipulate the whole file as one
Python string with find/replace and slicing; they are embedded here over
List Char with fuel-free or fuel-based structural recursion so that every
theorem about a concrete file evaluates inside the kernel. -/

/-- The schedule never produces more turns than its ceiling. -/
theorem chatTurns_length_le (roster : List String) (gen : Nat → Option String) :
    ∀ n i, (chatTurns roster gen i n).1.length ≤ n := by
  intro n
  induction n with
  | zero => intro i; simp [chatTurns]
  | succ n ih =>
    intro i
    cases hg : gen i with
    | none => simp [chatTurns, hg]
    | some c =>
      simp only [chatTurns, hg, List.length_cons]
      exact Nat.succ_le_succ (ih (i + 1))

/-- Every produced turn is spoken by the round-robin speaker for its
position. -/
theorem chatTurns_speaker (roster : List String) (gen : Nat → Option String) :
    ∀ n i j m, (chatTurns roster gen i n).1.get? j = some m →
      m.name = roster.getD ((i + j) % roster.length) "" := by
  intro n
  induction n with
  | zero => intro i j m h; simp [chatTurns] at h
  | succ n ih =>
    intro i j m h
    cases hg : gen i with
    | none => simp [chatTurns, hg] at h
    | some c =>
      simp only [chatTurns, hg] at h
      cases j with
      | zero =>
        simp only [List.get?] at h
        cases h
        simp
      | succ j =>
        simp only [List.get?] at h
        have hn := ih (i + 1) j m h
        have harith : i + (j + 1) = i + 1 + j := by omega
        rw [harith]
        exact hn

/-- C9: the Turn Scheduler never produces more turns than the configured
maximum turn count, and within every completed round-robin cycle each
roster member speaks at its own position (cycle c, offset j is spoken by
roster[j]), so no member is skipped and the order is the roster order. -/
theorem c9_scheduler_bound_roundrobin (roster : List String)
    (gen : Nat → Option String) (maxTurns : Nat) :
    (chatTurns roster gen 0 maxTurns).1.length ≤ maxTurns ∧
    ∀ c j, j < roster.length →
      ∀ m, (chatTurns roster gen 0 maxTurns).1.get? (c * roster.length + j) = some m →
        some m.name = roster.get? j := by
  constructor
  · exact chatTurns_length_le roster gen maxTurns 0
  · intro c j hj m hm
    have h := chatTurns_speaker roster gen maxTurns 0 (c * roster.length + j) m hm
    have hmod : (0 + (c * roster.length + j)) % roster.length = j := by
      rw [Nat.zero_add, Nat.add_comm (c * roster.length) j, Nat.add_mul_mod_self_right]
      exact Nat.mod_eq_of_lt hj
    rw [hmod] at h
    rw [h]
    simp only [List.getD]
    cases hq : roster.get? j with
    | none =>
      rw [List.get?_eq_none] at hq
      exact absurd hj (Nat.not_lt.mpr hq)
    | some v => simp

/-- Witness for C9: on the concrete 3-role roster with 9 scheduled turns,
the bound holds and the second turn of the second cycle (position 4) is
spoken by Con, the roster member at offset 1. -/
theorem c9_scheduler_bound_roundrobin_witness :
    (chatTurns rosterW genAllOK 0 9).1.length ≤ 9 ∧
    1 < rosterW.length ∧
    (chatTurns rosterW genAllOK 0 9).1.get? (1 * rosterW.length + 1)
      = some ⟨"Con", "発言"⟩ ∧
    some (Msg.name ⟨"Con", "発言"⟩) = rosterW.get? 1 :=
  ⟨(c9_scheduler_bound_roundrobin rosterW genAllOK 9).1,
   by decide,
   by decide,
   (c9_scheduler_bound_roundrobin rosterW genAllOK 9).2 1 1 (by decide)
     ⟨"Con", "発言"⟩ (by decide)⟩

/-- Counterexample to C2: in the simulated generation failure at turn 5 of
9 the sealed transcript contains zero turn blocks, not the four the claim
asserts, and its status marker reads 完了 (completed) — the in-progress
marker is gone but no failed status exists anywhere in the file. -/
theorem c2_failure_counterexample :
    ¬ countSub fileC2 turnHeading = 4 ∧
    countSub fileC2 turnHeading = 0 ∧
    hasSub fileC2 completedMarker = true ∧
    hasSub fileC2 inProgressMarker = false := by
  refine ⟨by decide, by decide, by decide, by decide⟩

/-- C2 as amended: a generation failure at turn 5 of 9 aborts the
remaining schedule (the in-memory log holds the initial message plus
exactly the 4 completed turns and the run is marked failed), but none of
the completed turns reach the transcript file, because the write loop of
src/main.py runs only after a successful chat; the file is still sealed —
with the completed status marker 完了 (the code has no failed status) and
a header message count of 4 recording the turns completed in memory. -/
theorem c2_failure_aborts_schedule :
    runC2.1.length = 5 ∧
    runC2.2 = false ∧
    (nonProxy runC2.1).length = 4 ∧
    countSub fileC2 turnHeading = 0 ∧
    hasSub fileC2 "**総メッセージ数:** 4\n\n".data = true ∧
    hasSub fileC2 completedMarker = true ∧
    hasSub fileC2 inProgressMarker = false := by
  refine ⟨by decide, by decide, by decide, by decide, by decide, by decide, by decide⟩

/-- Counterexample to C4: on a file with no section-break marker, finalize
completes without signalling any error and returns the file exactly as it
was — still marked in progress — rather than failing loudly. -/
theorem c4_finalize_missing_marker_counterexample :
    hasSub badTranscript sepMarker = false ∧
    finalizeContent badTranscript "2025年01月01日 12:10:00" "600.0秒 (10分0秒)" 3
      = Except.ok badTranscript ∧
    hasSub badTranscript inProgressMarker = true :=
  ⟨by decide, rfl, by decide⟩

/-- C4 as amended: whenever the section-break marker does not occur in the
transcript (after the in-memory status replacement), finalize silently
completes and leaves the file unmodified; no error is signalled and
nothing is repaired. -/
theorem c4_finalize_missing_marker (orig : List Char) (endTime durStr : String)
    (msgCount : Nat)
    (h : findSub (replaceSub orig inProgressMarker completedMarker) sepMarker = none) :
    finalizeContent orig endTime durStr msgCount = Except.ok orig := by
  simp [finalizeContent, h]

/-- Witness for C4: the marker-free transcript satisfies the hypothesis
and is returned untouched. -/
theorem c4_finalize_missing_marker_witness :
    findSub (replaceSub badTranscript inProgressMarker completedMarker) sepMarker
      = none ∧
    finalizeContent badTranscript "終了" "0.0秒 (0分0秒)" 0 = Except.ok badTranscript :=
  ⟨by decide, c4_finalize_missing_marker badTranscript "終了" "0.0秒 (0分0秒)" 0 (by decide)⟩

/-- C8: open with filename prefix "debate" and any timestamp yields the
path debate_<timestamp>.md, and finalize on the opened file replaces the
in-progress marker with the terminal one and injects end time, duration
and message count exactly once each, leaving the number of section-break
markers unchanged. -/
theorem c8_open_path_finalize_once (ts : String) :
    markdownPath "debate" ts = "debate_" ++ ts ++ ".md" ∧
    countSub finC8 sepMarker = countSub initC8 sepMarker ∧
    countSub finC8 "**終了時刻:** ".data = 1 ∧
    countSub finC8 "**議論時間:** ".data = 1 ∧
    countSub finC8 "**総メッセージ数:** ".data = 1 ∧
    countSub finC8 completedMarker = 1 ∧
    countSub finC8 inProgressMarker = 0 := by
  refine ⟨?_, by decide, by decide, by decide, by decide, by decide, by decide⟩
  unfold markdownPath
  rw [show ("debate" ++ "_" : String) = "debate_" from rfl]

/-- Concatenating strings concatenates their character data. -/
theorem data_append (a b : String) : (a ++ b).data = a.data ++ b.data := by
  cases a
  cases b
  rfl

/-- C10: the transcript file path is the bare
filename-prefix_<timestamp>.md with no directory component — it is
independent of the resolved logging output-directory setting, and it
contains no path separator whenever the prefix and timestamp contain
none, so the file always lands in the process's current working
directory. -/
theorem c10_transcript_path_ignores_directory (cfg : OutputConfig) (d ts : String) :
    transcriptPath ⟨d, cfg.stem⟩ ts = transcriptPath cfg ts ∧
    (transcriptPath cfg ts).data
      = cfg.stem.data ++ "_".data ++ ts.data ++ ".md".data ∧
    ((∀ c ∈ cfg.stem.data, c ≠ '/') → (∀ c ∈ ts.data, c ≠ '/') →
      ∀ c ∈ (transcriptPath cfg ts).data, c ≠ '/') := by
  refine ⟨rfl, ?_, ?_⟩
  · simp [transcriptPath, data_append]
  · intro h1 h2 c hc
    simp only [transcriptPath, data_append, List.mem_append] at hc
    rcases hc with ((hs | hu) | ht) | hm
    · exact h1 c hs
    · simp only [List.mem_singleton] at hu
      subst hu
      decide
    · exact h2 c ht
    · fin_cases hm <;> decide

/-- Witness for C10: with the default prefix "debate" and a concrete
timestamp the path is identical whatever the directory setting is, and
contains no path separator. -/
theorem c10_transcript_path_ignores_directory_witness :
    transcriptPath ⟨"/tmp/out", "debate"⟩ "20250101_120000"
      = transcriptPath ⟨".", "debate"⟩ "20250101_120000" ∧
    (∀ c ∈ ("debate" : String).data, c ≠ '/') ∧
    (∀ c ∈ ("20250101_120000" : String).data, c ≠ '/') ∧
    ∀ c ∈ (transcriptPath ⟨".", "debate"⟩ "20250101_120000").data, c ≠ '/' :=
  ⟨(c10_transcript_path_ignores_directory ⟨".", "debate"⟩ "/tmp/out" "20250101_120000").1,
   by decide, by decide,
   (c10_transcript_path_ignores_directory ⟨".", "debate"⟩ "." "20250101_120000").2.2
     (by decide) (by decide)⟩

/-- Counterexample to C5: with dry-run set and a configuration that
validation would reject (no API key anywhere), the program still exits
with code 0 and validate_config is never consulted — dry-run performs
resolution and summary printing but not validation. -/
theorem c5_dry_run_counterexample :
    (mainFlow cliArgsC5 envSrcNone (Value.vDict [])).validationRan = false ∧
    (mainFlow cliArgsC5 envSrcNone (Value.vDict [])).exitCode = some 0 ∧
    (mainFlow cliArgsC5 envSrcNone (Value.vDict [])).sessionStarted = false ∧
    validateConfig cliArgsC5 envSrcNone (Value.vDict []) = false := by
  refine ⟨by decide, by decide, by decide, by decide⟩

/-- C5 as amended: when the dry-run flag is truthy the program resolves
the configuration, prints the summary, and exits with code 0 without
starting a session — but it skips the validate_config step (only the
parse-time range checks on explicitly supplied CLI options run, inside the
argument parser). -/
theorem c5_dry_run_skips_validation (cliArgs : String → Option Value)
    (env : String → Option String) (yaml : Value)
    (h : pyTruthy ((cliArgs "dry_run").getD Value.vNone) = true) :
    mainFlow cliArgs env yaml = ⟨false, true, some 0, false⟩ := by
  simp [mainFlow, h]

/-- Witness for C5: the dry-run scenario arguments satisfy the hypothesis
and produce the no-validation exit-0 trace. -/
theorem c5_dry_run_skips_validation_witness :
    pyTruthy ((cliArgsC5 "dry_run").getD Value.vNone) = true ∧
    mainFlow cliArgsC5 envSrcNone (Value.vDict []) = ⟨false, true, some 0, false⟩ :=
  ⟨rfl, c5_dry_run_skips_validation cliArgsC5 envSrcNone (Value.vDict []) rfl⟩

end Owls
